import Mathlib

/-!
Verification of the runbot container helper module (runbot/container.py).

The module is command-assembly glue around the docker CLI.  We embed it
shallowly:

* pure string and argument-vector construction is translated to Lean
  functions on String and List String;
* optional Python arguments with truthiness tests are modelled by the
  PyVal type below, whose truthy function mirrors bool(v) in Python;
* side effects (directory creation, file copy, synchronous subprocess.run,
  asynchronous subprocess.Popen) are modelled as an explicit trace of
  Effect values in the order the Python code performs them;
* the external docker engine and the operating system are modelled by
  explicit parameters (exit codes, open and lock outcomes, the pid the
  OS assigns to a spawned process).
-/

/-- A Python value appearing as an optional argument of docker_run.
None models an omitted argument; int and str model supplied values. -/
inductive PyVal where
  | none
  | int (n : Int)
  | str (s : String)
deriving DecidableEq, Repr

/-- Python truthiness, as tested by the statements if exposed_port and
if cpu_limit in docker_run: None, 0 and the empty string are falsy. -/
def PyVal.truthy : PyVal → Bool
  | .none => false
  | .int n => decide (n ≠ 0)
  | .str s => decide (s ≠ "")

/-- Python percent-s formatting of a value, as in the expressions
that interpolate exposed_port and cpu_limit into flag strings. -/
def PyVal.fmt : PyVal → String
  | .none => "None"
  | .int n => toString n
  | .str s => s

/-- Model of os.path.join for a relative second component: join with a
single slash, which is what every call in this module produces. -/
def os_path_join (a b : String) : String := a ++ "/" ++ b

/-- The first element appended to cmd_chain in docker_run (line 40). -/
def cd_step : String := "cd /data/build"

/-- The second element appended to cmd_chain in docker_run (line 41):
the dependency-install step, whose shell text inspects the first line of
the entry-point file odoo-bin for the python3 marker and picks pip3,
falling back to pip on failure. -/
def install_step : String :=
  "head -1 odoo-bin | grep -q python3 && sudo pip3 install -r requirements.txt || sudo pip install -r requirements.txt"

/-- The in-container command string runCmd built by docker_run
(lines 39-43): three steps appended to cmd_chain in order, then joined
with the shell and-and separator. -/
def build_runCmd (odoo_cmd : List String) : String :=
  let cmd_chain : List String := []
  let cmd_chain := cmd_chain ++ [cd_step]
  let cmd_chain := cmd_chain ++ [install_step]
  let cmd_chain := cmd_chain ++ [String.intercalate " " odoo_cmd]
  String.intercalate " && " cmd_chain

/-- The docker run argument vector assembled by docker_run (lines 54-64).
runCmd is the composed in-container command string. -/
def docker_command (build_dir container_name : String)
    (exposed_port cpu_limit : PyVal) (runCmd : String) : List String :=
  let dc := ["docker", "run", "--rm",
             "--name", container_name,
             "--volume=/var/run/postgresql:/var/run/postgresql",
             "--volume=" ++ build_dir ++ ":/data/build"]
  let dc := if exposed_port.truthy
            then dc ++ ["-p", "127.0.0.1:" ++ exposed_port.fmt ++ ":8069"]
            else dc
  let dc := if cpu_limit.truthy
            then dc ++ ["--ulimit", "cpu=" ++ cpu_limit.fmt]
            else dc
  dc ++ ["odoo:runbot_tests", "/bin/bash", "-c", runCmd]

/-- One observable side effect of the module, in the order performed.
openWrite models open(path, w); makedirs models os.makedirs with
exist_ok; copy models shutil.copy; runSync models subprocess.run, which
blocks until the external command finishes; spawn models
subprocess.Popen, which starts a background process and returns at once
without waiting for it. -/
inductive Effect where
  | openWrite (path : String)
  | makedirs (path : String)
  | copy (src dst : String)
  | runSync (args : List String) (cwd : Option String)
  | spawn (args : List String) (logPath : String)
deriving DecidableEq, Repr

/-- docker_run (lines 29-67): builds runCmd, opens the log file,
prepares the docker image (makedirs, copy of the packaged Dockerfile,
synchronous docker build tagged odoo:runbot_tests run from the docker
subdirectory), then spawns the container process and returns its pid.
module_dir models os.path.dirname of the module file; spawned_pid is
the pid the operating system assigns to the Popen child. -/
def docker_run (module_dir build_dir log_path : String) (odoo_cmd : List String)
    (container_name : String) (exposed_port cpu_limit : PyVal)
    (spawned_pid : Nat) : List Effect × Nat :=
  let runCmd := build_runCmd odoo_cmd
  let docker_dir := os_path_join build_dir "docker"
  let effects : List Effect :=
    [Effect.openWrite log_path,
     Effect.makedirs docker_dir,
     Effect.copy (os_path_join (os_path_join module_dir "data") "Dockerfile") docker_dir,
     Effect.runSync ["docker", "build", "--tag", "odoo:runbot_tests", "."] (some docker_dir),
     Effect.spawn (docker_command build_dir container_name exposed_port cpu_limit runCmd) log_path]
  (effects, spawned_pid)

/-- The error raised by subprocess.run with check on a nonzero exit. -/
structure CalledProcessError where
  returncode : Int
deriving DecidableEq, Repr

/-- subprocess.run with check set: raises CalledProcessError exactly
when the external command exits nonzero. -/
def subprocess_run_check (exit_code : Int) : Except CalledProcessError Unit :=
  if exit_code = 0 then Except.ok () else Except.error ⟨exit_code⟩

/-- docker_stop (lines 69-72): runs docker stop on the named container
with check set, so the call raises iff the engine exits nonzero.
engine_exit models the exit code the docker engine returns for a stop
request on each container name. -/
def docker_stop (engine_exit : String → Int) (container_name : String) :
    Except CalledProcessError Unit :=
  subprocess_run_check (engine_exit container_name)

/-- docker_build (lines 74-77): runs docker build with only the fixed
tag, no build-context argument, no working directory, no check; its
docker_file_path argument is never used. -/
def docker_build (docker_file_path : String) : List Effect :=
  [Effect.runSync ["docker", "build", "--tag", "odoo:runbot_tests"] Option.none]

/-- Outcomes the environment can give the lock probe: whether os.open
raises OSError, and whether fcntl.lockf raises OSError because another
process holds the lock. -/
structure LockEnv where
  openFails : Bool
  lockBusy : Bool
deriving DecidableEq, Repr

/-- File-descriptor state of the probing process: the set of its open
descriptors and the next descriptor number the kernel would hand out. -/
structure FdState where
  openFds : List Nat
  nextFd : Nat
deriving DecidableEq, Repr

/-- os.open inside locked: either raises, or returns a fresh descriptor
and records it open. -/
def os_open (env : LockEnv) (s : FdState) : Except Unit Nat × FdState :=
  if env.openFails then (Except.error (), s)
  else (Except.ok s.nextFd, ⟨s.openFds ++ [s.nextFd], s.nextFd + 1⟩)

/-- fcntl.lockf with LOCK_EX and LOCK_NB inside locked: raises exactly
when another process holds the lock. -/
def fcntl_lockf (env : LockEnv) (fd : Nat) : Except Unit Unit :=
  if env.lockBusy then Except.error () else Except.ok ()

/-- os.close: removes the descriptor from the open set. -/
def os_close (fd : Nat) (s : FdState) : FdState :=
  ⟨s.openFds.filter (fun x => x != fd), s.nextFd⟩

/-- locked (lines 126-138): result starts false; an OSError from os.open
returns false at once; otherwise the non-blocking exclusive lock is
attempted, an OSError there sets the result true, and the finally
block closes the descriptor before the result is returned.  The outer
Except is the exceptions the function itself may propagate. -/
def locked (env : LockEnv) (s : FdState) : Except Unit Bool × FdState :=
  match os_open env s with
  | (Except.error _, s1) => (Except.ok false, s1)
  | (Except.ok fd, s1) =>
      let result : Bool :=
        match fcntl_lockf env fd with
        | Except.error _ => true
        | Except.ok _ => false
      (Except.ok result, os_close fd s1)

/-- Observable outcome of the argument check at the top of the
self-test entry point: messages the logger writes to standard error
(the default stream of logging.StreamHandler) and the exit status. -/
structure MainStart where
  stderrMessages : List String
  exitCode : Option Nat
deriving DecidableEq, Repr

/-- The argument check of the self-test entry point (lines 88-90): with
fewer than five elements in argv (program name plus four positionals)
it logs an error to standard error and exits with status 1; otherwise
it proceeds. -/
def main_argcheck (argv : List String) : MainStart :=
  if argv.length < 5 then
    { stderrMessages :=
        ["Missing arguments: \"" ++ argv.headD "" ++ " build_dir odoo_version odoo_port db_name\""],
      exitCode := some 1 }
  else
    { stderrMessages := [], exitCode := none }

/-! Helper lemmas shared between the claim theorems. -/

/-- Flattened form of the composed in-container command string. -/
lemma build_runCmd_flat (odoo_cmd : List String) :
    build_runCmd odoo_cmd =
      "cd /data/build && head -1 odoo-bin | grep -q python3 && sudo pip3 install -r requirements.txt || sudo pip install -r requirements.txt && "
        ++ String.intercalate " " odoo_cmd := rfl

set_option maxRecDepth 4096

/-- The composed command string is long: at least the fixed prefix. -/
lemma build_runCmd_length (odoo_cmd : List String) :
    137 ≤ (build_runCmd odoo_cmd).length := by
  rw [build_runCmd_flat, String.length_append]
  have h : ("cd /data/build && head -1 odoo-bin | grep -q python3 && sudo pip3 install -r requirements.txt || sudo pip install -r requirements.txt && " : String).length = 137 := by decide
  omega

/-- The composed command string never equals a short literal flag. -/
lemma build_runCmd_ne_short (odoo_cmd : List String) (s : String)
    (hs : s.length < 137) : build_runCmd odoo_cmd ≠ s := by
  intro h
  have hl := build_runCmd_length odoo_cmd
  rw [h] at hl
  omega

/-- A string with a known prefix is never a shorter literal. -/
lemma prefixed_ne (a b s : String) (h : s.length < a.length) : a ++ b ≠ s := by
  intro heq
  have hl := congrArg String.length heq
  rw [String.length_append] at hl
  omega

/-- A string wrapped between two known pieces is never a literal shorter
than the two pieces together. -/
lemma wrapped_ne (a b c s : String) (h : s.length < a.length + c.length) :
    a ++ b ++ c ≠ s := by
  intro heq
  have hl := congrArg String.length heq
  rw [String.length_append, String.length_append] at hl
  omega

/-- Closing the freshly opened descriptor restores the descriptor set. -/
lemma filter_append_fresh (l : List Nat) (x : Nat) (h : x ∉ l) :
    (l ++ [x]).filter (fun a => a != x) = l := by
  rw [List.filter_append]
  have h1 : l.filter (fun a => a != x) = l := by
    rw [List.filter_eq_self]
    intro a ha
    simp only [bne_iff_ne, ne_eq, decide_eq_true_eq]
    intro heq
    exact h (heq ▸ ha)
  simp [h1]

/-- Membership in the assembled docker run vector, split by the two
optional flag groups. -/
lemma mem_docker_command (build_dir container_name : String) (ep cl : PyVal)
    (rc s : String) :
    s ∈ docker_command build_dir container_name ep cl rc ↔
      (s ∈ ["docker", "run", "--rm", "--name", container_name,
            "--volume=/var/run/postgresql:/var/run/postgresql",
            "--volume=" ++ build_dir ++ ":/data/build"] ∨
       (ep.truthy = true ∧ s ∈ ["-p", "127.0.0.1:" ++ ep.fmt ++ ":8069"]) ∨
       (cl.truthy = true ∧ s ∈ ["--ulimit", "cpu=" ++ cl.fmt]) ∨
       s ∈ ["odoo:runbot_tests", "/bin/bash", "-c", rc]) := by
  unfold docker_command
  cases hep : ep.truthy <;> cases hcl : cl.truthy <;>
    simp [hep, hcl, List.mem_append, or_assoc, or_comm, or_left_comm]

/-- C1: for every token list odoo_cmd, the in-container command string
built by docker_run is the directory change, then the dependency-install
step that inspects the first line of the entry-point file for a python3
marker with a fallback installer, then the payload tokens joined by
single spaces, the three chained into one shell string. -/
theorem runCmd_cd_install_payload (odoo_cmd : List String) :
    build_runCmd odoo_cmd =
      cd_step ++ " && " ++ install_step ++ " && " ++ String.intercalate " " odoo_cmd := by
  rw [build_runCmd_flat]
  rfl

/-- C2: the lock probe returns true exactly when the open succeeds and
the lock acquisition raises; it returns false otherwise, never
propagates an exception (in particular not when the open itself fails),
and its descriptor set on return equals the one it started from. -/
theorem locked_spec (env : LockEnv) (s : FdState) (h : s.nextFd ∉ s.openFds) :
    (locked env s).1 = Except.ok (!env.openFails && env.lockBusy) ∧
    ((locked env s).2).openFds = s.openFds := by
  unfold locked os_open fcntl_lockf os_close
  cases he : env.openFails <;> cases hb : env.lockBusy <;>
    simp [he, hb, filter_append_fresh s.openFds s.nextFd h]

/-- Witness for C2: concrete run where the open succeeds and another
process holds the lock; the probe reports true and closes the fd. -/
theorem locked_spec_witness :
    (locked ⟨false, true⟩ ⟨[], 0⟩).1 = Except.ok true ∧
    ((locked ⟨false, true⟩ ⟨[], 0⟩).2).openFds = [] :=
  locked_spec ⟨false, true⟩ ⟨[], 0⟩ (by simp)

/-- C3: docker_stop raises CalledProcessError exactly when the engine
stop command exits nonzero; under an engine that exits zero exactly on
currently running names, it raises for every non-running name and
returns normally for every running one. -/
theorem docker_stop_raises_iff_nonzero (engine_exit : String → Int)
    (running : String → Bool)
    (h : ∀ n, engine_exit n = 0 ↔ running n = true) (name : String) :
    ((∃ e, docker_stop engine_exit name = Except.error e) ↔ engine_exit name ≠ 0) ∧
    (running name = false → ∃ e, docker_stop engine_exit name = Except.error e) ∧
    (running name = true → docker_stop engine_exit name = Except.ok ()) := by
  unfold docker_stop subprocess_run_check
  refine ⟨?_, ?_, ?_⟩
  · by_cases hz : engine_exit name = 0 <;> simp [hz]
  · intro hr
    have hz : engine_exit name ≠ 0 := by
      intro h0
      have := (h name).mp h0
      rw [hr] at this
      exact Bool.false_ne_true this
    simp [hz]
  · intro hr
    have hz : engine_exit name = 0 := (h name).mpr hr
    simp [hz]

/-- Witness for C3: an engine where only the container named c1 is
running; stopping a nonexistent name raises. -/
theorem docker_stop_raises_iff_nonzero_witness :
    ∃ e, docker_stop (fun n => if n = "c1" then (0 : Int) else 1)
        "nonexistent-name-12345" = Except.error e :=
  (docker_stop_raises_iff_nonzero (fun n => if n = "c1" then (0 : Int) else 1)
      (fun n => n == "c1")
      (by intro n; by_cases hn : n = "c1" <;> simp [hn])
      "nonexistent-name-12345").2.1 (by decide)

/-- C5 evidence: docker_build only issues a docker build with the fixed
tag and no build-context argument, performs no copy and no directory
creation, sets no working directory, and ignores its path argument. -/
theorem docker_build_no_copy_no_context :
    docker_build "/tmp/build" =
      [Effect.runSync ["docker", "build", "--tag", "odoo:runbot_tests"] Option.none] ∧
    (∀ p q : String, docker_build p = docker_build q) :=
  ⟨rfl, fun _ _ => rfl⟩

/-- C6: every image build issued by docker_run and docker_build, and
the image selected by the launch vector, uses the fixed literal tag
odoo-colon-runbot_tests, whatever the inputs; no versioned tag scheme
is applied anywhere. -/
theorem image_tag_fixed (module_dir build_dir log_path : String)
    (odoo_cmd : List String) (container_name : String) (ep cl : PyVal)
    (pid : Nat) (p q : String) :
    Effect.runSync ["docker", "build", "--tag", "odoo:runbot_tests", "."]
        (some (os_path_join build_dir "docker"))
      ∈ (docker_run module_dir build_dir log_path odoo_cmd container_name ep cl pid).1 ∧
    "odoo:runbot_tests" ∈
      docker_command build_dir container_name ep cl (build_runCmd odoo_cmd) ∧
    docker_build p =
      [Effect.runSync ["docker", "build", "--tag", "odoo:runbot_tests"] Option.none] ∧
    docker_build p = docker_build q := by
  refine ⟨?_, ?_, rfl, rfl⟩
  · unfold docker_run
    simp
  · rw [mem_docker_command]
    simp

/-- C7: docker_run ends by spawning the container through the
non-blocking primitive (Popen) as its last effect, with no other spawn
before it and nothing after it, and returns the pid of that spawned
process. -/
theorem docker_run_nonblocking_returns_pid (module_dir build_dir log_path : String)
    (odoo_cmd : List String) (container_name : String) (ep cl : PyVal) (pid : Nat) :
    (docker_run module_dir build_dir log_path odoo_cmd container_name ep cl pid).2 = pid ∧
    ∃ pre,
      (docker_run module_dir build_dir log_path odoo_cmd container_name ep cl pid).1 =
        pre ++ [Effect.spawn
          (docker_command build_dir container_name ep cl (build_runCmd odoo_cmd)) log_path] ∧
      ∀ args lp, Effect.spawn args lp ∉ pre := by
  refine ⟨rfl,
    [Effect.openWrite log_path,
     Effect.makedirs (os_path_join build_dir "docker"),
     Effect.copy (os_path_join (os_path_join module_dir "data") "Dockerfile")
       (os_path_join build_dir "docker"),
     Effect.runSync ["docker", "build", "--tag", "odoo:runbot_tests", "."]
       (some (os_path_join build_dir "docker"))],
    rfl, ?_⟩
  intro args lp
  simp

/-- C8: the self-test argument check exits with status 1 and writes an
error line to standard error exactly when argv has fewer than five
elements, that is fewer than four positional arguments after the
program name; with all four it proceeds with no exit. -/
theorem main_argcheck_spec (argv : List String) :
    (main_argcheck argv).exitCode = (if argv.length < 5 then some 1 else none) ∧
    ((main_argcheck argv).stderrMessages ≠ [] ↔ argv.length < 5) ∧
    (argv.length < 5 ↔ argv.tail.length < 4) := by
  refine ⟨?_, ?_, ?_⟩
  · unfold main_argcheck
    by_cases h : argv.length < 5 <;> simp [h]
  · unfold main_argcheck
    by_cases h : argv.length < 5 <;> simp [h]
  · cases argv
    · simp
    · simp
      omega

/-- C10: every invocation of docker_run performs, in order and before
anything later: creation of the docker subdirectory, the copy of the
packaged Dockerfile into it, a synchronous blocking image build tagged
odoo:runbot_tests from that subdirectory, and only then the spawn of
the container process. -/
theorem docker_run_rebuilds_image_each_launch (module_dir build_dir log_path : String)
    (odoo_cmd : List String) (container_name : String) (ep cl : PyVal) (pid : Nat) :
    List.Sublist
      [Effect.makedirs (os_path_join build_dir "docker"),
       Effect.copy (os_path_join (os_path_join module_dir "data") "Dockerfile")
         (os_path_join build_dir "docker"),
       Effect.runSync ["docker", "build", "--tag", "odoo:runbot_tests", "."]
         (some (os_path_join build_dir "docker")),
       Effect.spawn (docker_command build_dir container_name ep cl (build_runCmd odoo_cmd))
         log_path]
      (docker_run module_dir build_dir log_path odoo_cmd container_name ep cl pid).1 :=
  List.Sublist.cons _ (List.Sublist.refl _)

/-- With a falsy exposed_port value no port-publish flag enters the
vector (given the container name is not itself that literal). -/
lemma no_port_flag_of_falsy (build_dir container_name : String)
    (odoo_cmd : List String) (ep cl : PyVal)
    (hc : container_name ≠ "-p") (hep : ep.truthy = false) :
    "-p" ∉ docker_command build_dir container_name ep cl (build_runCmd odoo_cmd) := by
  intro hmem
  rw [mem_docker_command] at hmem
  rcases hmem with hm | ⟨ht, _⟩ | ⟨_, hm⟩ | hm
  · simp only [List.mem_cons, List.not_mem_nil, or_false] at hm
    rcases hm with h | h | h | h | h | h | h
    · exact absurd h (by decide)
    · exact absurd h (by decide)
    · exact absurd h (by decide)
    · exact absurd h (by decide)
    · exact hc h.symm
    · exact absurd h (by decide)
    · exact wrapped_ne "--volume=" build_dir ":/data/build" "-p" (by decide) h.symm
  · rw [hep] at ht
    exact Bool.false_ne_true ht
  · simp only [List.mem_cons, List.not_mem_nil, or_false] at hm
    rcases hm with h | h
    · exact absurd h (by decide)
    · exact prefixed_ne "cpu=" cl.fmt "-p" (by decide) h.symm
  · simp only [List.mem_cons, List.not_mem_nil, or_false] at hm
    rcases hm with h | h | h | h
    · exact absurd h (by decide)
    · exact absurd h (by decide)
    · exact absurd h (by decide)
    · exact build_runCmd_ne_short odoo_cmd "-p" (by decide) h.symm

/-- With a falsy cpu_limit value no ulimit flag enters the vector
(given the container name is not itself that literal). -/
lemma no_ulimit_flag_of_falsy (build_dir container_name : String)
    (odoo_cmd : List String) (ep cl : PyVal)
    (hc : container_name ≠ "--ulimit") (hcl : cl.truthy = false) :
    "--ulimit" ∉ docker_command build_dir container_name ep cl (build_runCmd odoo_cmd) := by
  intro hmem
  rw [mem_docker_command] at hmem
  rcases hmem with hm | ⟨_, hm⟩ | ⟨ht, _⟩ | hm
  · simp only [List.mem_cons, List.not_mem_nil, or_false] at hm
    rcases hm with h | h | h | h | h | h | h
    · exact absurd h (by decide)
    · exact absurd h (by decide)
    · exact absurd h (by decide)
    · exact absurd h (by decide)
    · exact hc h.symm
    · exact absurd h (by decide)
    · exact wrapped_ne "--volume=" build_dir ":/data/build" "--ulimit" (by decide) h.symm
  · simp only [List.mem_cons, List.not_mem_nil, or_false] at hm
    rcases hm with h | h
    · exact absurd h (by decide)
    · exact wrapped_ne "127.0.0.1:" ep.fmt ":8069" "--ulimit" (by decide) h.symm
  · rw [hcl] at ht
    exact Bool.false_ne_true ht
  · simp only [List.mem_cons, List.not_mem_nil, or_false] at hm
    rcases hm with h | h | h | h
    · exact absurd h (by decide)
    · exact absurd h (by decide)
    · exact absurd h (by decide)
    · exact build_runCmd_ne_short odoo_cmd "--ulimit" (by decide) h.symm

/-- C9: the optional launch flags are gated on truthiness, not on being
supplied: a falsy exposed_port (such as 0 or the empty string) yields
no port-publish flag and a falsy cpu_limit yields no ulimit flag. -/
theorem docker_command_falsy_flags_absent (build_dir container_name : String)
    (odoo_cmd : List String) (ep cl : PyVal)
    (h1 : container_name ≠ "-p") (h2 : container_name ≠ "--ulimit") :
    (ep.truthy = false →
        "-p" ∉ docker_command build_dir container_name ep cl (build_runCmd odoo_cmd)) ∧
    (cl.truthy = false →
        "--ulimit" ∉ docker_command build_dir container_name ep cl (build_runCmd odoo_cmd)) :=
  ⟨fun hep => no_port_flag_of_falsy build_dir container_name odoo_cmd ep cl h1 hep,
   fun hcl => no_ulimit_flag_of_falsy build_dir container_name odoo_cmd ep cl h2 hcl⟩

/-- Witness for C9: both optional values supplied as the integer 0, a
falsy value; neither flag appears in the vector. -/
theorem docker_command_falsy_flags_absent_witness :
    "-p" ∉ docker_command "/tmp/b" "c1" (PyVal.int 0) (PyVal.int 0)
        (build_runCmd ["echo", "hi"]) ∧
    "--ulimit" ∉ docker_command "/tmp/b" "c1" (PyVal.int 0) (PyVal.int 0)
        (build_runCmd ["echo", "hi"]) :=
  ⟨(docker_command_falsy_flags_absent "/tmp/b" "c1" ["echo", "hi"]
      (PyVal.int 0) (PyVal.int 0) (by decide) (by decide)).1 (by decide),
   (docker_command_falsy_flags_absent "/tmp/b" "c1" ["echo", "hi"]
      (PyVal.int 0) (PyVal.int 0) (by decide) (by decide)).2 (by decide)⟩

/-- C4 counterexample: exposed_port supplied (the integer 0, which is
not None) yet the vector built by docker_run contains no port-publish
flag, refuting the claim that a supplied exposed_port always yields
the publish pair. -/
theorem docker_run_port_flag_counterexample :
    PyVal.int 0 ≠ PyVal.none ∧
    "-p" ∉ docker_command "/tmp/b" "c1" (PyVal.int 0) PyVal.none
        (build_runCmd ["echo", "hi"]) := by
  refine ⟨by decide, ?_⟩
  decide

/-- C4 amended: when exposed_port is omitted or falsy the vector has no
port-publish flag (the container name not being that literal); when
exposed_port is truthy the vector contains the adjacent pair of the
publish flag and the loopback-bound mapping to internal port 8069. -/
theorem docker_run_port_flag (build_dir container_name : String)
    (odoo_cmd : List String) (ep cl : PyVal) (hc : container_name ≠ "-p") :
    (ep.truthy = false →
        "-p" ∉ docker_command build_dir container_name ep cl (build_runCmd odoo_cmd)) ∧
    (ep.truthy = true → ∃ l1 l2,
        docker_command build_dir container_name ep cl (build_runCmd odoo_cmd) =
          l1 ++ ["-p", "127.0.0.1:" ++ ep.fmt ++ ":8069"] ++ l2) := by
  constructor
  · exact fun hep => no_port_flag_of_falsy build_dir container_name odoo_cmd ep cl hc hep
  · intro hep
    refine ⟨["docker", "run", "--rm", "--name", container_name,
             "--volume=/var/run/postgresql:/var/run/postgresql",
             "--volume=" ++ build_dir ++ ":/data/build"], ?_⟩
    cases hcl : cl.truthy
    · exact ⟨["odoo:runbot_tests", "/bin/bash", "-c", build_runCmd odoo_cmd], by
        unfold docker_command
        rw [hep, hcl]
        simp⟩
    · exact ⟨["--ulimit", "cpu=" ++ cl.fmt, "odoo:runbot_tests", "/bin/bash", "-c",
          build_runCmd odoo_cmd], by
        unfold docker_command
        rw [hep, hcl]
        simp⟩

/-- Witness for C4 amended: omitted exposed_port gives no publish flag;
a truthy exposed_port gives the adjacent publish pair. -/
theorem docker_run_port_flag_witness :
    "-p" ∉ docker_command "/tmp/b" "c1" PyVal.none PyVal.none
        (build_runCmd ["echo", "hi"]) ∧
    ∃ l1 l2, docker_command "/tmp/b" "c1" (PyVal.str "8069") PyVal.none
        (build_runCmd ["echo", "hi"]) =
      l1 ++ ["-p", "127.0.0.1:" ++ (PyVal.str "8069").fmt ++ ":8069"] ++ l2 :=
  ⟨(docker_run_port_flag "/tmp/b" "c1" ["echo", "hi"] PyVal.none PyVal.none
      (by decide)).1 (by decide),
   (docker_run_port_flag "/tmp/b" "c1" ["echo", "hi"] (PyVal.str "8069") PyVal.none
      (by decide)).2 (by decide)⟩
